import Mathlib

/-!
Verification development for the darkbot external-collection synchronization
pipeline (`bot/utils/boardgames.py` and `bot/scripts/backfill_bgg_private.py`).

The Python code is shallowly embedded: each relevant function becomes a pure
Lean function, network and database effects become explicit oracles and event
traces, and Python exceptions become an explicit error component.  Wait
durations (floats in the source, but only ever exact values such as 5.0,
2.0 ^ n, or `float` of a digit string) are modelled as rationals.
-/

namespace Darkbot

/-- Python exception classes that occur in the modelled code paths. -/
inductive PyErr where
  | attributeError
  | typeError
  | parseError
  | dbError (code : Nat)
  | generic (code : Nat)
deriving Repr, DecidableEq

/-! ### String helpers (models of the Python string operations used) -/

/-- `hasPre needle hay`: `needle` is an initial segment of `hay` (char lists). -/
def hasPre : List Char → List Char → Bool
  | [], _ => true
  | _ :: _, [] => false
  | a :: as, b :: bs => a == b && hasPre as bs

/-- `occursIn needle hay`: `needle` occurs contiguously somewhere in `hay`. -/
def occursIn (needle : List Char) : List Char → Bool
  | [] => needle.isEmpty
  | c :: rest => hasPre needle (c :: rest) || occursIn needle rest

/-- Substring test on strings (model of Python's `in` on `str`). -/
def strOccurs (needle hay : String) : Bool :=
  occursIn needle.data hay.data

/-- Python slice `s[:n]` (used for the `body(first1000)` log excerpts):
the first `n` characters of the string. -/
def strFirst (s : String) (n : Nat) : String :=
  String.mk (s.data.take n)

/-- Model of Python `str.isnumeric` restricted to ASCII strings: nonempty and
all characters are decimal digits.  (Unicode numerics such as superscripts are
outside the modelled character set.) -/
def pyIsnumeric (s : String) : Bool :=
  !s.isEmpty && s.data.all Char.isDigit

/-- Numeric value of a digits-only character list. -/
def charsVal (l : List Char) : Nat :=
  l.foldl (fun n c => n * 10 + (c.toNat - 48)) 0

/-- Numeric value of a digits-only string. -/
def digitsVal (s : String) : Nat :=
  charsVal s.data

/-- ASCII whitespace. -/
def isWs (c : Char) : Bool :=
  c == ' ' || c == '\t' || c == '\n' || c == '\r'

/-- Python `str.strip()` on ASCII strings: drop whitespace at both ends. -/
def pyStrip (l : List Char) : List Char :=
  ((l.dropWhile isWs).reverse.dropWhile isWs).reverse

/-- Splitting a character list at a separator character (the separator is
dropped; `n` separators yield `n + 1` pieces). -/
def splitChar (sep : Char) : List Char → List (List Char)
  | [] => [[]]
  | c :: rest =>
      if c == sep then [] :: splitChar sep rest
      else
        match splitChar sep rest with
        | [] => [[c]]
        | piece :: pieces => (c :: piece) :: pieces

/-- Sign handling shared by the numeric conversions: Python `int()` / `float()`
accept one optional leading `-` or `+`. -/
def signSplit (l : List Char) : Int × List Char :=
  match l with
  | '-' :: rest => (-1, rest)
  | '+' :: rest => (1, rest)
  | _ => (1, l)

/-- Model of Python `int(s)` on an (ASCII) string: optional surrounding
whitespace, optional sign, then at least one digit; `none` models the
`ValueError` raised on any other shape (underscore separators are outside the
model). -/
def pyIntOfString (s : String) : Option Int :=
  let (sign, u) := signSplit (pyStrip s.data)
  if u.isEmpty then none
  else if u.all Char.isDigit then some (sign * (charsVal u : Int))
  else none

/-- Model of Python `float(s)` on an (ASCII) string, for the decimal shapes
`d+`, `d+.d*`, `.d+`, `d+.` with optional sign and surrounding whitespace;
`none` models `ValueError`.  (Exponent notation and `inf` / `nan` are outside
the shapes exercised by this pipeline.) -/
def pyFloatOfString (s : String) : Option ℚ :=
  let (sign, u) := signSplit (pyStrip s.data)
  match splitChar '.' u with
  | [a] =>
      if !a.isEmpty && a.all Char.isDigit then some ((sign : ℚ) * (charsVal a : ℚ))
      else none
  | [a, b] =>
      if (a.isEmpty && b.isEmpty) then none
      else if a.all Char.isDigit && b.all Char.isDigit then
        some ((sign : ℚ) * ((charsVal a : ℚ) + (charsVal b : ℚ) / (10 : ℚ) ^ b.length))
      else none
  | _ => none

/-! ### `safe_convert` (bot/utils/boardgames.py lines 9-13)

`safe_convert(value, default, data_type)` applies the conversion and returns
`default` on `ValueError` (malformed string) or `TypeError` (`None` input).
The two instantiations used by the decoder are embedded separately. -/

/-- `safe_convert(value, default, int)`: `None` or a malformed string yields
the default. -/
def safe_convert_int (value : Option String) (d : Int) : Int :=
  match value with
  | none => d
  | some s => (pyIntOfString s).getD d

/-- `safe_convert(value, default, float)`: `None` or a malformed string yields
the default. -/
def safe_convert_float (value : Option String) (d : ℚ) : ℚ :=
  match value with
  | none => d
  | some s => (pyFloatOfString s).getD d

/-! ### The Collection Fetcher (`fetch_bgg_collection`, lines 16-176)

One loop iteration performs one network call; the server's behaviour on the
`attempt`-th call is an `HttpEvent`: either a response with a status, optional
`Retry-After` header, body and reason, or one of the exception classes raised
by the HTTP client (`aiohttp.ClientResponseError` carrying an optional status,
a transport-level `aiohttp.ClientError`, or any other exception).
Cancellation (`asyncio.CancelledError`) re-raises immediately and is outside
the modelled event alphabet. -/

inductive HttpEvent where
  | resp (status : Nat) (retryAfter : Option String) (body : String) (reason : String)
  | respError (status : Option Nat)
  | transportError
  | otherError
deriving Repr

/-- The value returned by `fetch_bgg_collection`: a `(body, status)` pair, or
the bare `None` returned at line 142 for a `ClientResponseError` whose
`status` attribute is 401/403. -/
inductive FetchResult where
  | pair (body : Option String) (status : Option Nat)
  | bareNone
deriving Repr, DecidableEq

/-- `true` exactly on the two-component `(body, status)` return shapes. -/
def FetchResult.isPair : FetchResult → Bool
  | .pair _ _ => true
  | .bareNone => false

/-- Log lines emitted by the fetcher, as structured events; `LogMsg.render`
recovers the formatted text of the lines a claim inspects. -/
inductive LogMsg where
  | attemptingFetch (username : String)
  | fetchedOk (username : String)
  | queued202 (username : String) (attempt maxAttempts : Nat)
  | rateLimited (username : String) (attempt maxAttempts : Nat) (delay : ℚ)
  | authError (username : String) (status : Nat) (reason : String) (bodyFirst1000 : String)
  | authHint
  | serverError (status : Nat) (username : String) (attempt maxAttempts : Nat) (delay : ℚ)
  | unexpectedStatus (username : String) (status : Nat) (reason : String) (bodyFirst1000 : String)
  | clientRespError (username : String) (attempt maxAttempts : Nat)
  | clientError (username : String) (attempt maxAttempts : Nat)
  | unexpectedError (username : String) (attempt maxAttempts : Nat)
  | exhausted (maxAttempts : Nat) (username : String)
deriving Repr, DecidableEq

/-- Formatted text of the log lines whose content the specification inspects
(the authorization-error line of boardgames.py lines 91-97 and the operator
hint of lines 99-103); other events render as a short tag. -/
def LogMsg.render : LogMsg → String
  | .authError u s r b =>
      "Authorization error fetching BGG for " ++ u ++ ": " ++ toString s ++ " " ++ r
        ++ " -- body(first1000): " ++ b
  | .authHint =>
      "Hint: this usually means the user\x27s collection is private or the API requires a logged-in session.\n"
        ++ "To fetch private collections, set BGG_COOKIE or BGG_AUTH_COOKIE in your environment with a valid session cookie (e.g. \x27bb=...; other=...\x27).\n"
        ++ "If you don\x27t need private collections, ask the user to make their collection public or skip private accounts."
  | .exhausted _ u => "Failed to retrieve BGG collection after attempts for user " ++ u
  | _ => "log"

/-- Observable effect trace of one `fetch_bgg_collection` call: number of
network calls issued, the sleep durations in order, and the log events. -/
structure FetchTrace where
  calls : Nat
  sleeps : List ℚ
  logs : List LogMsg
deriving Repr, DecidableEq

/-- The Backoff Policy: boardgames.py line 77,
`delay = float(ra) if ra and ra.isnumeric() else backoff ** attempt`.
`attempt` is 1-based; a digits-only `Retry-After` value is used verbatim,
anything else (absent header, empty string, or a non-`isnumeric` string such
as `"1.5"`) falls back to the exponential backoff. -/
def retryDelay (backoff : ℚ) (attempt : Nat) (ra : Option String) : ℚ :=
  match ra with
  | some s => if pyIsnumeric s then (digitsVal s : ℚ) else backoff ^ attempt
  | none => backoff ^ attempt

/-- Classification of one server event as transient (the fetcher retries) —
202, 429, 5xx, a `ClientResponseError` without a 401/403 status, a transport
error, or an unexpected exception. -/
def isTransient : HttpEvent → Bool
  | .resp s _ _ _ => s == 202 || s == 429 || (500 ≤ s && s < 600)
  | .respError s? => !(s? == some 401 || s? == some 403)
  | .transportError => true
  | .otherError => true

/-- The retry loop of `fetch_bgg_collection` (lines 36-176).  `attempt` is the
1-based attempt counter; `fuel` is the number of loop iterations still
allowed, so the loop body runs for attempts `attempt, attempt+1, ...` until
`fuel` runs out, which models the `for attempt in range(1, max_attempts + 1)`
loop falling through to the exhaustion return `(None, None)` at line 176. -/
def fetchAux (username : String) (maxAttempts : Nat) (backoff : ℚ)
    (server : Nat → HttpEvent) : Nat → Nat → FetchTrace → FetchResult × FetchTrace
  | 0, _, tr =>
      (.pair none none, { tr with logs := tr.logs ++ [.exhausted maxAttempts username] })
  | fuel + 1, attempt, tr =>
      let tr := { tr with calls := tr.calls + 1 }
      match server attempt with
      | .resp status ra body reason =>
          if status = 200 then
            (.pair (some body) (some 200), { tr with logs := tr.logs ++ [.fetchedOk username] })
          else if status = 202 then
            fetchAux username maxAttempts backoff server fuel (attempt + 1)
              { tr with logs := tr.logs ++ [.queued202 username attempt maxAttempts],
                        sleeps := tr.sleeps ++ [5] }
          else if status = 429 then
            let delay := retryDelay backoff attempt ra
            fetchAux username maxAttempts backoff server fuel (attempt + 1)
              { tr with logs := tr.logs ++ [.rateLimited username attempt maxAttempts delay],
                        sleeps := tr.sleeps ++ [delay] }
          else if status = 401 ∨ status = 403 then
            (.pair none (some status),
             { tr with logs := tr.logs
                 ++ [.authError username status reason (strFirst body 1000), .authHint] })
          else if 500 ≤ status ∧ status < 600 then
            fetchAux username maxAttempts backoff server fuel (attempt + 1)
              { tr with logs := tr.logs
                  ++ [.serverError status username attempt maxAttempts (backoff ^ attempt)],
                        sleeps := tr.sleeps ++ [backoff ^ attempt] }
          else
            (.pair none (some status),
             { tr with logs := tr.logs
                 ++ [.unexpectedStatus username status reason (strFirst body 1000)] })
      | .respError s? =>
          let tr := { tr with logs := tr.logs ++ [.clientRespError username attempt maxAttempts] }
          if s? = some 401 ∨ s? = some 403 then
            (.bareNone, tr)
          else
            fetchAux username maxAttempts backoff server fuel (attempt + 1)
              { tr with sleeps := tr.sleeps ++ [backoff ^ attempt] }
      | .transportError =>
          fetchAux username maxAttempts backoff server fuel (attempt + 1)
            { tr with logs := tr.logs ++ [.clientError username attempt maxAttempts],
                      sleeps := tr.sleeps ++ [backoff ^ attempt] }
      | .otherError =>
          fetchAux username maxAttempts backoff server fuel (attempt + 1)
            { tr with logs := tr.logs ++ [.unexpectedError username attempt maxAttempts],
                      sleeps := tr.sleeps ++ [backoff ^ attempt] }

/-- `fetch_bgg_collection(username, logger, max_attempts, backoff)` as a
function of the server behaviour `server` (the event produced by the
`attempt`-th network call).  Returns the Python return value together with the
effect trace. -/
def fetch_bgg_collection (username : String) (server : Nat → HttpEvent)
    (maxAttempts : Nat) (backoff : ℚ) : FetchResult × FetchTrace :=
  fetchAux username maxAttempts backoff server maxAttempts 1
    { calls := 0, sleeps := [], logs := [.attemptingFetch username] }

/-! ### The Record Decoder (`process_bgg_users` lines 307-338)

`xml.etree.ElementTree` elements are modelled as a tag, an attribute list, an
optional text node and a child list.  `find` follows a `/`-separated path of
child tags (first matching child at each step); `get` looks up an attribute,
optionally with a default.  Calling `.get`/`.text` on the result of a `find`
that returned `None` raises `AttributeError` in Python; the decoder models
that with `PyErr.attributeError`. -/

inductive Xml where
  | elem (tag : String) (attrs : List (String × String)) (text : Option String)
      (children : List Xml)

/-- The element's tag. -/
def Xml.tag : Xml → String
  | .elem t _ _ _ => t

/-- The element's attribute list. -/
def Xml.attrs : Xml → List (String × String)
  | .elem _ a _ _ => a

/-- The element's text node (Python `elem.text`, `None` when absent). -/
def Xml.text : Xml → Option String
  | .elem _ _ t _ => t

/-- The element's children. -/
def Xml.children : Xml → List Xml
  | .elem _ _ _ c => c

/-- Python `elem.get(key)`: the attribute's value, or `None`. -/
def Xml.getAttr (x : Xml) (k : String) : Option String :=
  (x.attrs.find? (fun p => p.1 == k)).map (fun p => p.2)

/-- Python `elem.get(key, default)`. -/
def Xml.getAttrD (x : Xml) (k d : String) : String :=
  (x.getAttr k).getD d

/-- Python `elem.find(path)` along an already-split path: at each step descend
into the first child with the given tag. -/
def Xml.findPath : List String → Xml → Option Xml
  | [], x => some x
  | t :: rest, x =>
      match x.children.find? (fun c => c.tag == t) with
      | some c => Xml.findPath rest c
      | none => none

/-- Python `elem.find(path)` with a `/`-separated path. -/
def Xml.find (x : Xml) (p : String) : Option Xml :=
  Xml.findPath ((splitChar '/' p.data).map String.mk) x

/-- One decoded game-ownership record (the `game_data` dict of lines
309-338).  `name` is `Option String` because Python stores `None` when the
`name` element exists but has no text. -/
structure GameData where
  userid : Int
  name : Option String
  bggid : Int
  avgrating : ℚ
  own : Bool
  prevowned : Bool
  fortrade : Bool
  want : Bool
  wanttoplay : Bool
  wanttobuy : Bool
  wishlist : Bool
  preordered : Bool
  minplayers : Int
  maxplayers : Int
  minplaytime : Int
  numplays : Int
deriving Repr, DecidableEq

/-- `AttributeError` when an attribute or `.text` is read off the result of a
`find` that returned `None`. -/
def derefElem : Option Xml → Except PyErr Xml
  | some x => .ok x
  | none => .error .attributeError

/-- Building `game_data` for one `item` element (lines 309-338), with the
fields evaluated in Python dict-literal order, so the first missing element
(`stats/rating/average`, then `status`, then `stats`, then `numplays`)
determines which access raises `AttributeError`. -/
def decodeItem (userid : Int) (item : Xml) : Except PyErr GameData := do
  let statusElem := item.find "status"
  let name : Option String :=
    match item.find "name" with
    | some e => e.text
    | none => some "Unknown"
  let bggid := safe_convert_int (item.getAttr "objectid") 0
  let ratingElem ← derefElem (item.find "stats/rating/average")
  let avgrating := safe_convert_float (ratingElem.getAttr "value") 0
  let st ← derefElem statusElem
  let own := st.getAttrD "own" "0" == "1"
  let prevowned := st.getAttrD "prevowned" "0" == "1"
  let fortrade := st.getAttrD "fortrade" "0" == "1"
  let want := st.getAttrD "want" "0" == "1"
  let wanttoplay := st.getAttrD "wanttoplay" "0" == "1"
  let wanttobuy := st.getAttrD "wanttobuy" "0" == "1"
  let wishlist := st.getAttrD "wishlist" "0" == "1"
  let preordered := st.getAttrD "preordered" "0" == "1"
  let statsElem ← derefElem (item.find "stats")
  let minplayers := safe_convert_int (statsElem.getAttr "minplayers") 0
  let maxplayers := safe_convert_int (statsElem.getAttr "maxplayers") 0
  let minplaytime := safe_convert_int (statsElem.getAttr "minplaytime") 0
  let numplaysElem ← derefElem (item.find "numplays")
  let numplays := safe_convert_int numplaysElem.text 0
  return { userid := userid, name := name, bggid := bggid, avgrating := avgrating,
           own := own, prevowned := prevowned, fortrade := fortrade, want := want,
           wanttoplay := wanttoplay, wanttobuy := wanttobuy, wishlist := wishlist,
           preordered := preordered, minplayers := minplayers, maxplayers := maxplayers,
           minplaytime := minplaytime, numplays := numplays }

/-! ### The Upsert Writer store semantics

Modelled from the spec: the server-side stored procedure `upsert_boardgame`
invoked by `bot/utils/boardgames.py` lines 183-222 is a PostgreSQL routine
whose SQL body is not part of the repository source; only its call site is.
Per the specification it is an idempotent upsert keyed by
(account id, external item id): it inserts a new row when no row with that
key exists, and otherwise overwrites all fields of the existing row.  The
store is modelled as the list of rows of the boardgame table. -/

/-- Two rows share the (account id, external item id) key. -/
def sameKey (a b : GameData) : Bool :=
  a.userid == b.userid && a.bggid == b.bggid

/-- Modelled from the spec: the stored procedure `upsert_boardgame` — insert
the row if its (account id, external item id) key is absent, otherwise
overwrite every field of the row(s) carrying that key. -/
def upsert_boardgame_sql (store : List GameData) (g : GameData) : List GameData :=
  if store.any (fun r => sameKey g r) then
    store.map (fun r => if sameKey g r then g else r)
  else
    store ++ [g]

/-- Rows of a store carrying the key of `g`. -/
def rowsWithKey (store : List GameData) (g : GameData) : List GameData :=
  store.filter (fun r => sameKey g r)

/-! ### Writer transaction scoping (`upsert_boardgame` lines 179-233 and the
backfill write block, backfill_bgg_private.py lines 74-98)

The database driver calls are replaced by outcome oracles (`none` = the call
succeeds, `some e` = it raises `e`); the model returns the sequence of
cursor/transaction events the Python code performs, plus the exception the
function re-raises, if any. -/

inductive DbEvent where
  | openCursor
  | execOk
  | execFail
  | commit
  | rollback
  | closeCursor
deriving Repr, DecidableEq

/-- `upsert_boardgame(db, logger, game_data)` (lines 179-233): open a cursor,
execute the stored-procedure call, commit, and close the cursor in a
`finally`; any exception is logged and re-raised.  No rollback is issued on
any path. -/
def upsert_boardgame_tx (cursorOut execOut commitOut : Option PyErr) :
    List DbEvent × Option PyErr :=
  match cursorOut with
  | some e => ([], some e)
  | none =>
      match execOut with
      | some e => ([.openCursor, .execFail, .closeCursor], some e)
      | none =>
          match commitOut with
          | some e => ([.openCursor, .execOk, .closeCursor], some e)
          | none => ([.openCursor, .execOk, .commit, .closeCursor], none)

/-- The live-mode marking block of `_check_user_and_mark`
(backfill_bgg_private.py lines 74-98): open a cursor, defensively roll back,
execute the `UPDATE` setting `bggprivate` and `datemodified`, commit; on any
exception log, roll back, and swallow it (returning `marked = false`); the
cursor is closed in a `finally`.  Opening the cursor itself (line 74) is
outside the `try`, so a failure there propagates.  Result: the event trace,
the exception that propagates (if any), and the `marked` flag. -/
def mark_private_tx (cursorOut execOut commitOut : Option PyErr) :
    List DbEvent × Option PyErr × Bool :=
  match cursorOut with
  | some e => ([], some e, false)
  | none =>
      match execOut with
      | some _ => ([.openCursor, .rollback, .execFail, .rollback, .closeCursor], none, false)
      | none =>
          match commitOut with
          | some _ => ([.openCursor, .rollback, .execOk, .rollback, .closeCursor], none, false)
          | none => ([.openCursor, .rollback, .execOk, .commit, .closeCursor], none, true)

/-- Number of statements executed against the account table in a trace. -/
def writeCount (evs : List DbEvent) : Nat :=
  (evs.filter (fun e => e == .execOk || e == .execFail)).length

/-! ### The Backfill Tool (`_check_user_and_mark`, backfill_bgg_private.py
lines 57-101)

The probe is one real `fetch_bgg_collection` call with `max_attempts = 1`.
The result models the Python return tuple (`none` when an exception
propagates out of the coroutine), the database events performed against the
account table, and the tool's log lines. -/

inductive BfLog where
  | fetchUnhandled (bgguser : String)
  | dryWouldMark (uid : Int) (bgguser : String) (status : Option Nat)
  | markedLive (uid : Int)
  | markError (uid : Int)
deriving Repr, DecidableEq

structure BfResult where
  ret : Option (Int × String × Option Nat × Bool)
  events : List DbEvent
  logs : List BfLog
deriving Repr, DecidableEq

/-- `_check_user_and_mark(db_conn, user_id, bgguser, dry_run)`.  A bare-`None`
fetch return makes the tuple unpacking at line 64 raise `TypeError`, which the
`except` at line 65 turns into `(user_id, bgguser, None, False)`. -/
def check_user_and_mark (uid : Int) (bg : String) (server : Nat → HttpEvent)
    (dryRun : Bool) (cursorOut execOut commitOut : Option PyErr) : BfResult :=
  match (fetch_bgg_collection bg server 1 2).1 with
  | .bareNone =>
      { ret := some (uid, bg, none, false), events := [], logs := [.fetchUnhandled bg] }
  | .pair _ status =>
      if status = some 401 ∨ status = some 403 then
        if dryRun then
          { ret := some (uid, bg, status, false), events := [],
            logs := [.dryWouldMark uid bg status] }
        else
          match mark_private_tx cursorOut execOut commitOut with
          | (evs, some _, _) => { ret := none, events := evs, logs := [] }
          | (evs, none, marked) =>
              { ret := some (uid, bg, status, marked), events := evs,
                logs := if marked then [.markedLive uid] else [.markError uid] }
      else
        { ret := some (uid, bg, status, false), events := [], logs := [] }

/-! ### The Sync Orchestrator (`process_bgg_users`, lines 236-361)

The environment supplies the account listing (which may raise), the HTTP
behaviour seen by each username's fetch, the XML parse (`none` models
`ET.ParseError` from `ET.fromstring`; `some items` is `root.findall("item")`),
and outcome oracles for the two database writes. -/

structure OrchEnv where
  listUsers : Except PyErr (List (Int × String))
  server : String → Nat → HttpEvent
  parse : String → Option (List Xml)
  upsert : GameData → Option PyErr
  mark : Int → Option PyErr

inductive OrchLog where
  | processingUsers (n : Nat)
  | markingPrivate (uid : Int)
  | markedPrivate (uid : Int)
  | couldNotMark (uid : Int)
  | skippingAuth (bgguser : String) (status : Option Nat)
  | noData (bgguser : String)
  | parseFailed (bgguser : String)
  | upsertOkLog (name : Option String) (bggid : Int)
  | upsertSkipped (bgguser : String) (name : Option String)
  | criticalUser (bgguser : String) (uid : Int)
  | criticalRun
deriving Repr, DecidableEq

/-- Observable effects of one orchestrator run: the accounts whose loop body
was entered (in order), the accounts marked private, the records successfully
upserted (in order), and the log events. -/
structure OrchState where
  processedUsers : List Int
  markedPrivate : List Int
  upserted : List GameData
  logs : List OrchLog
deriving Repr, DecidableEq

/-- The per-item loop (lines 307-348): building `game_data` is outside the
per-item `try`, so a decode `AttributeError` aborts the loop (second
component `some e`); the `upsert_boardgame` call is inside it, so an upsert
failure only logs a warning and the loop continues. -/
def upsertItems (env : OrchEnv) (uid : Int) (bg : String) :
    List Xml → OrchState → OrchState × Option PyErr
  | [], st => (st, none)
  | it :: rest, st =>
      match decodeItem uid it with
      | .error e => (st, some e)
      | .ok gd =>
          match env.upsert gd with
          | none =>
              upsertItems env uid bg rest
                { st with upserted := st.upserted ++ [gd],
                          logs := st.logs ++ [.upsertOkLog gd.name gd.bggid] }
          | some _ =>
              upsertItems env uid bg rest
                { st with logs := st.logs ++ [.upsertSkipped bg gd.name] }

/-- The body of the per-account `try` (lines 249-348).  Returns the state
reached plus the exception that escaped to the per-account handler, if any. -/
def accountBody (env : OrchEnv) (uid : Int) (bg : String) (st : OrchState) :
    OrchState × Option PyErr :=
  match (fetch_bgg_collection bg (env.server bg) 3 2).1 with
  | .bareNone => (st, some .typeError)
  | .pair body status =>
      if status = some 401 ∨ status = some 403 then
        let st1 : OrchState := { st with logs := st.logs ++ [.markingPrivate uid] }
        let st2 : OrchState :=
          match env.mark uid with
          | none =>
              { st1 with markedPrivate := st1.markedPrivate ++ [uid],
                         logs := st1.logs ++ [.markedPrivate uid] }
          | some _ => { st1 with logs := st1.logs ++ [.couldNotMark uid] }
        ({ st2 with logs := st2.logs ++ [.skippingAuth bg status] }, none)
      else
        match body with
        | none => ({ st with logs := st.logs ++ [.noData bg] }, none)
        | some b =>
            if b = "" then ({ st with logs := st.logs ++ [.noData bg] }, none)
            else
              match env.parse b with
              | none => ({ st with logs := st.logs ++ [.parseFailed bg] }, none)
              | some items => upsertItems env uid bg items st

/-- One iteration of the account loop: the account boundary `try`/`except`
(lines 249-358) — any exception from the body is logged with the account
identity and the loop continues. -/
def processUser (env : OrchEnv) (uid : Int) (bg : String) (st : OrchState) : OrchState :=
  let st0 := { st with processedUsers := st.processedUsers ++ [uid] }
  match accountBody env uid bg st0 with
  | (st1, none) => st1
  | (st1, some _) => { st1 with logs := st1.logs ++ [.criticalUser bg uid] }

/-- The account loop over a user list. -/
def runUsers (env : OrchEnv) (users : List (Int × String)) (st : OrchState) : OrchState :=
  users.foldl (fun s u => processUser env u.1 u.2 s) st

/-- The empty starting state. -/
def initOrchState : OrchState :=
  { processedUsers := [], markedPrivate := [], upserted := [], logs := [] }

/-- `process_bgg_users(db, logger)`: list the users (lines 238-245), then run
the account loop.  The outermost `try`/`except Exception` (lines 237, 359-360)
turns a failure of the listing query into a logged critical error and a
normal return; the Python function body has no `return` statement, so its
return value is `None` in every case — only the effect state is observable. -/
def process_bgg_users (env : OrchEnv) : Except PyErr OrchState :=
  match env.listUsers with
  | .error _ => .ok { initOrchState with logs := [.criticalRun] }
  | .ok users =>
      .ok (runUsers env users { initOrchState with logs := [.processingUsers users.length] })

/-- The records that a run over `items` successfully writes: those whose
decode succeeds and whose upsert oracle reports success. -/
def okUpserts (env : OrchEnv) (uid : Int) (items : List Xml) : List GameData :=
  items.filterMap (fun it =>
    match decodeItem uid it with
    | .ok gd =>
        match env.upsert gd with
        | none => some gd
        | some _ => none
    | .error _ => none)

/-! ### Concrete fixtures used by witnesses and counterexamples -/

/-- A server producing a fixed finite response sequence (one event per
attempt, 1-based); attempts past the end succeed. -/
def serverSeq (l : List HttpEvent) : Nat → HttpEvent :=
  fun n => l.getD (n - 1) (.resp 200 none "" "OK")

/-- A server that always answers 401 Unauthorized. -/
def authServer : Nat → HttpEvent :=
  fun _ => .resp 401 none "Unauthorized" "Unauthorized"

/-- A transport layer that always raises `ClientResponseError` with status
401. -/
def respErr401Server : Nat → HttpEvent :=
  fun _ => .respError (some 401)

/-- First attempt: 429 with `Retry-After: 1.5`; second attempt: success. -/
def fracRAServer : Nat → HttpEvent :=
  serverSeq [.resp 429 (some "1.5") "" "Too Many Requests", .resp 200 none "ok" "OK"]

/-- Two 202 responses, then a 200 with body `<items/>`. -/
def queuedServer : Nat → HttpEvent :=
  serverSeq [.resp 202 none "" "Accepted", .resp 202 none "" "Accepted",
             .resp 200 none "<items/>" "OK"]

/-- A server that always answers 503. -/
def unavailableServer : Nat → HttpEvent :=
  fun _ => .resp 503 none "" "Service Unavailable"

/-- A fully well-formed collection item. -/
def goodItem : Xml :=
  .elem "item" [("objectid", "174430")] none
    [ .elem "name" [] (some "Gloomhaven") [],
      .elem "status" [("own", "1"), ("wishlist", "0")] none [],
      .elem "stats" [("minplayers", "1"), ("maxplayers", "4"), ("minplaytime", "60")] none
        [ .elem "rating" [] none [ .elem "average" [("value", "8.5")] none [] ] ],
      .elem "numplays" [] (some "12") [] ]

/-- Like `goodItem` but with no `numplays` child element. -/
def itemNoNumplays : Xml :=
  .elem "item" [("objectid", "174430")] none
    [ .elem "name" [] (some "Gloomhaven") [],
      .elem "status" [("own", "1")] none [],
      .elem "stats" [("minplayers", "1"), ("maxplayers", "4"), ("minplaytime", "60")] none
        [ .elem "rating" [] none [ .elem "average" [("value", "8.5")] none [] ] ],
      .elem "numplays2" [] none [] ]

/-- Like `goodItem` but with a non-numeric rating attribute and no
`minplayers` attribute. -/
def itemOddRating : Xml :=
  .elem "item" [("objectid", "174430")] none
    [ .elem "name" [] (some "Gloomhaven") [],
      .elem "status" [("own", "1")] none [],
      .elem "stats" [("maxplayers", "4"), ("minplaytime", "60")] none
        [ .elem "rating" [] none [ .elem "average" [("value", "N/A")] none [] ] ],
      .elem "numplays" [] (some "12") [] ]

/-- Two accounts; the first's body decodes to an item whose `game_data`
construction raises (`itemNoNumplays`), the second's to a fully valid item. -/
def twoUserEnv : OrchEnv :=
  { listUsers := .ok [(1, "alice"), (2, "bob")],
    server := fun u => fun _ =>
      if u == "alice" then .resp 200 none "A" "OK" else .resp 200 none "B" "OK",
    parse := fun b => if b == "A" then some [itemNoNumplays] else some [goodItem],
    upsert := fun _ => none,
    mark := fun _ => none }

/-- An environment whose account-listing query raises. -/
def badListEnv : OrchEnv :=
  { listUsers := .error (.dbError 7),
    server := fun _ => fun _ => .resp 200 none "" "OK",
    parse := fun _ => none,
    upsert := fun _ => none,
    mark := fun _ => none }

/-- A concrete decoded record. -/
def gRecord : GameData :=
  { userid := 1, name := some "Gloomhaven", bggid := 174430, avgrating := 8,
    own := true, prevowned := false, fortrade := false, want := false,
    wanttoplay := false, wanttobuy := false, wishlist := false, preordered := false,
    minplayers := 1, maxplayers := 4, minplaytime := 60, numplays := 12 }

/-- A record for the same account with a different external item id. -/
def gOther : GameData :=
  { gRecord with bggid := 9, name := some "Chess" }

/-! ## Theorems -/

/-- Sleeps already recorded are preserved (and only extended) by the retry
loop. -/
theorem fetchAux_sleeps_pre (u : String) (m : Nat) (b : ℚ) (srv : Nat → HttpEvent) :
    ∀ fuel attempt tr, tr.sleeps <+: (fetchAux u m b srv fuel attempt tr).2.sleeps := by
  intro fuel
  induction fuel with
  | zero =>
      intro attempt tr
      exact List.prefix_rfl
  | succ n ih =>
      intro attempt tr
      simp only [fetchAux]
      cases hsrv : srv attempt with
      | resp status ra body reason =>
          by_cases h200 : status = 200
          · simp [h200]
          · by_cases h202 : status = 202
            · simp only [if_neg h200, if_pos h202]
              exact (List.prefix_append tr.sleeps [5]).trans (ih (attempt + 1)
                { calls := tr.calls + 1, sleeps := tr.sleeps ++ [5],
                  logs := tr.logs ++ [LogMsg.queued202 u attempt m] })
            · by_cases h429 : status = 429
              · simp only [if_neg h200, if_neg h202, if_pos h429]
                exact (List.prefix_append tr.sleeps [retryDelay b attempt ra]).trans
                  (ih (attempt + 1)
                    { calls := tr.calls + 1, sleeps := tr.sleeps ++ [retryDelay b attempt ra],
                      logs := tr.logs
                        ++ [LogMsg.rateLimited u attempt m (retryDelay b attempt ra)] })
              · by_cases hauth : status = 401 ∨ status = 403
                · simp [h200, h202, h429, hauth]
                · by_cases h5xx : 500 ≤ status ∧ status < 600
                  · simp only [if_neg h200, if_neg h202, if_neg h429, if_neg hauth,
                      if_pos h5xx]
                    exact (List.prefix_append tr.sleeps [b ^ attempt]).trans (ih (attempt + 1)
                      { calls := tr.calls + 1, sleeps := tr.sleeps ++ [b ^ attempt],
                        logs := tr.logs
                          ++ [LogMsg.serverError status u attempt m (b ^ attempt)] })
                  · simp [h200, h202, h429, hauth, h5xx]
      | respError s? =>
          by_cases hs : s? = some 401 ∨ s? = some 403
          · simp [hs]
          · simp only [if_neg hs]
            exact (List.prefix_append tr.sleeps [b ^ attempt]).trans (ih (attempt + 1)
              { calls := tr.calls + 1, sleeps := tr.sleeps ++ [b ^ attempt],
                logs := tr.logs ++ [LogMsg.clientRespError u attempt m] })
      | transportError =>
          exact (List.prefix_append tr.sleeps [b ^ attempt]).trans (ih (attempt + 1)
            { calls := tr.calls + 1, sleeps := tr.sleeps ++ [b ^ attempt],
              logs := tr.logs ++ [LogMsg.clientError u attempt m] })
      | otherError =>
          exact (List.prefix_append tr.sleeps [b ^ attempt]).trans (ih (attempt + 1)
            { calls := tr.calls + 1, sleeps := tr.sleeps ++ [b ^ attempt],
              logs := tr.logs ++ [LogMsg.unexpectedError u attempt m] })

/-- If every attempt in the remaining window produces a transient event, the
loop exhausts its budget, returns `(None, None)`, and logs the exhaustion. -/
theorem fetchAux_exhaust (u : String) (m : Nat) (b : ℚ) (srv : Nat → HttpEvent) :
    ∀ fuel attempt tr,
      (∀ k, attempt ≤ k → k < attempt + fuel → isTransient (srv k) = true) →
      (fetchAux u m b srv fuel attempt tr).1 = .pair none none ∧
      LogMsg.exhausted m u ∈ (fetchAux u m b srv fuel attempt tr).2.logs := by
  intro fuel
  induction fuel with
  | zero =>
      intro attempt tr _
      refine ⟨rfl, ?_⟩
      simp [fetchAux]
  | succ n ih =>
      intro attempt tr htrans
      have hshift : ∀ k, attempt + 1 ≤ k → k < (attempt + 1) + n →
          isTransient (srv k) = true := fun k h1 h2 => htrans k (by omega) (by omega)
      have ht := htrans attempt le_rfl (by omega)
      simp only [fetchAux]
      cases hsrv : srv attempt with
      | resp status ra body reason =>
          rw [hsrv] at ht
          simp only [isTransient, Bool.or_eq_true, beq_iff_eq, Bool.and_eq_true,
            decide_eq_true_eq] at ht
          have h200 : ¬ status = 200 := by omega
          rcases ht with (h202 | h429) | h5xx
          · simp only [if_neg h200, if_pos h202]
            exact ih (attempt + 1)
              { calls := tr.calls + 1, sleeps := tr.sleeps ++ [5],
                logs := tr.logs ++ [LogMsg.queued202 u attempt m] } hshift
          · simp only [if_neg h200, if_neg (by omega : ¬ status = 202), if_pos h429]
            exact ih (attempt + 1)
              { calls := tr.calls + 1, sleeps := tr.sleeps ++ [retryDelay b attempt ra],
                logs := tr.logs
                  ++ [LogMsg.rateLimited u attempt m (retryDelay b attempt ra)] } hshift
          · simp only [if_neg h200, if_neg (by omega : ¬ status = 202),
              if_neg (by omega : ¬ status = 429),
              if_neg (by omega : ¬ (status = 401 ∨ status = 403)), if_pos h5xx]
            exact ih (attempt + 1)
              { calls := tr.calls + 1, sleeps := tr.sleeps ++ [b ^ attempt],
                logs := tr.logs
                  ++ [LogMsg.serverError status u attempt m (b ^ attempt)] } hshift
      | respError s? =>
          rw [hsrv] at ht
          simp only [isTransient, Bool.not_eq_eq_eq_not, Bool.not_true, Bool.or_eq_false_iff,
            beq_eq_false_iff_ne, ne_eq] at ht
          have hne : ¬ (s? = some 401 ∨ s? = some 403) := by
            rcases ht with ⟨h1, h2⟩
            rintro (h | h) <;> [exact h1 h; exact h2 h]
          simp only [if_neg hne]
          exact ih (attempt + 1)
            { calls := tr.calls + 1, sleeps := tr.sleeps ++ [b ^ attempt],
              logs := (tr.logs ++ [LogMsg.clientRespError u attempt m]) } hshift
      | transportError =>
          exact ih (attempt + 1)
            { calls := tr.calls + 1, sleeps := tr.sleeps ++ [b ^ attempt],
              logs := tr.logs ++ [LogMsg.clientError u attempt m] } hshift
      | otherError =>
          exact ih (attempt + 1)
            { calls := tr.calls + 1, sleeps := tr.sleeps ++ [b ^ attempt],
              logs := tr.logs ++ [LogMsg.unexpectedError u attempt m] } hshift

set_option maxRecDepth 4000 in
/-- C3 (confirmed): for every username and `maxAttempts ≥ 1`, a 401/403
response on the first attempt makes the fetcher perform exactly one network
call and no retries, log the authorization-error line and the operator hint
about private collections and the `BGG_COOKIE` / `BGG_AUTH_COOKIE` session
credential, and return `(None, status)`; in particular
`fetch("DadDialTone", maxAttempts = 1)` against a 401 "Unauthorized" response
returns `(None, 401)` and the rendered log contains the substring
"Authorization error". -/
theorem auth_error_terminal_single_call :
    (∀ (username : String) (maxAttempts : Nat) (backoff : ℚ) (server : Nat → HttpEvent)
        (s : Nat) (ra : Option String) (body reason : String),
        1 ≤ maxAttempts → server 1 = .resp s ra body reason → s = 401 ∨ s = 403 →
        fetch_bgg_collection username server maxAttempts backoff =
          (.pair none (some s),
           { calls := 1, sleeps := [],
             logs := [.attemptingFetch username,
                      .authError username s reason (strFirst body 1000), .authHint] })) ∧
    (fetch_bgg_collection "DadDialTone" authServer 1 2).1 = .pair none (some 401) ∧
    LogMsg.authError "DadDialTone" 401 "Unauthorized" (strFirst "Unauthorized" 1000) ∈
      (fetch_bgg_collection "DadDialTone" authServer 1 2).2.logs ∧
    strOccurs "Authorization error"
      ((LogMsg.authError "DadDialTone" 401 "Unauthorized"
          (strFirst "Unauthorized" 1000)).render) = true := by
  refine ⟨?_, rfl, by decide, by decide⟩
  intro username maxAttempts backoff server s ra body reason hmax hsrv hs
  obtain ⟨k, rfl⟩ : ∃ k, maxAttempts = k + 1 := ⟨maxAttempts - 1, by omega⟩
  rcases hs with rfl | rfl <;>
    simp [fetch_bgg_collection, fetchAux, hsrv]

/-- C4 (code bug): the claim that `fetch_bgg_collection` always returns one of
the three `(body, status)` pair shapes is the documented intent (both call
sites unpack the result as a pair), but on a transport-raised
`ClientResponseError` carrying status 401 the code's line 142 `return None`
produces a bare non-pair value. -/
theorem fetch_outcome_shape_bug :
    (fetch_bgg_collection "DadDialTone" respErr401Server 3 2).1 = .bareNone ∧
    ((fetch_bgg_collection "DadDialTone" respErr401Server 3 2).1.isPair) = false := by
  exact ⟨rfl, rfl⟩

/-- C6 (corrected, amended): on a 429, a `Retry-After` value is used verbatim
only when it is a digits-only string (Python `str.isnumeric`); a fractional
value such as "1.5", although a valid non-negative number, falls back to the
exponential backoff `backoff ^ attempt` (1-based attempt), as does an absent
header; and the wait actually recorded for a 429 attempt is exactly
`retryDelay backoff attempt retryAfter`. -/
theorem retry_after_policy_amended :
    (∀ (backoff : ℚ) (attempt : Nat) (s : String),
        retryDelay backoff attempt (some s) =
          if pyIsnumeric s then (digitsVal s : ℚ) else backoff ^ attempt) ∧
    (∀ (backoff : ℚ) (attempt : Nat), retryDelay backoff attempt none = backoff ^ attempt) ∧
    (∀ (u : String) (m : Nat) (b : ℚ) (srv : Nat → HttpEvent) (fuel attempt : Nat)
        (tr : FetchTrace) (ra : Option String) (body reason : String),
        srv attempt = .resp 429 ra body reason →
        ∃ rest, (fetchAux u m b srv (fuel + 1) attempt tr).2.sleeps =
          tr.sleeps ++ [retryDelay b attempt ra] ++ rest) := by
  refine ⟨fun _ _ _ => rfl, fun _ _ => rfl, ?_⟩
  intro u m b srv fuel attempt tr ra body reason hsrv
  have hstep : fetchAux u m b srv (fuel + 1) attempt tr
      = fetchAux u m b srv fuel (attempt + 1)
        { calls := tr.calls + 1, sleeps := tr.sleeps ++ [retryDelay b attempt ra],
          logs := tr.logs ++ [LogMsg.rateLimited u attempt m (retryDelay b attempt ra)] } := by
    simp [fetchAux, hsrv]
  rw [hstep]
  obtain ⟨rest, hrest⟩ := fetchAux_sleeps_pre u m b srv fuel (attempt + 1)
    { calls := tr.calls + 1, sleeps := tr.sleeps ++ [retryDelay b attempt ra],
      logs := tr.logs ++ [LogMsg.rateLimited u attempt m (retryDelay b attempt ra)] }
  exact ⟨rest, by rw [← hrest]⟩

/-- C6 counterexample: against a 429 response carrying `Retry-After: 1.5`
(a valid non-negative number, so per the claim the wait should be 1.5
seconds) with `maxAttempts = 2` and backoff base 2, the policy maps "1.5" to
the exponential backoff value 2 and the fetcher waits 2 seconds, a duration
strictly greater than the header's 3/2 seconds. -/
theorem retry_after_fractional_cex :
    (fetch_bgg_collection "u" fracRAServer 2 2).2.sleeps = [2] ∧
    retryDelay 2 1 (some "1.5") = 2 ∧
    (3 : ℚ) / 2 < 2 := by
  have h : pyIsnumeric "1.5" = false := by decide
  exact ⟨rfl, by simp [retryDelay, h], by norm_num⟩

/-- C7 (confirmed): every 202 attempt records a fixed 5-second wait (not the
exponential backoff) and retries; the concrete sequence [202, 202, 200] with
`maxAttempts = 3` returns the third body after two 5-second waits and three
network calls; and a run whose every attempt is transient returns
`(None, None)` and logs exhaustion. -/
theorem pending_fixed_delay_and_exhaustion :
    (∀ (u : String) (m : Nat) (b : ℚ) (srv : Nat → HttpEvent) (fuel attempt : Nat)
        (tr : FetchTrace) (ra : Option String) (body reason : String),
        srv attempt = .resp 202 ra body reason →
        ∃ rest, (fetchAux u m b srv (fuel + 1) attempt tr).2.sleeps =
          tr.sleeps ++ [5] ++ rest) ∧
    (fetch_bgg_collection "user" queuedServer 3 2 =
      (.pair (some "<items/>") (some 200),
       { calls := 3, sleeps := [5, 5],
         logs := [.attemptingFetch "user", .queued202 "user" 1 3, .queued202 "user" 2 3,
                  .fetchedOk "user"] })) ∧
    (∀ (u : String) (m : Nat) (b : ℚ) (srv : Nat → HttpEvent),
        (∀ k, 1 ≤ k → k ≤ m → isTransient (srv k) = true) →
        (fetch_bgg_collection u srv m b).1 = .pair none none ∧
        LogMsg.exhausted m u ∈ (fetch_bgg_collection u srv m b).2.logs) := by
  refine ⟨?_, by decide, ?_⟩
  · intro u m b srv fuel attempt tr ra body reason hsrv
    have hstep : fetchAux u m b srv (fuel + 1) attempt tr
        = fetchAux u m b srv fuel (attempt + 1)
          { calls := tr.calls + 1, sleeps := tr.sleeps ++ [5],
            logs := tr.logs ++ [LogMsg.queued202 u attempt m] } := by
      simp [fetchAux, hsrv]
    rw [hstep]
    obtain ⟨rest, hrest⟩ := fetchAux_sleeps_pre u m b srv fuel (attempt + 1)
      { calls := tr.calls + 1, sleeps := tr.sleeps ++ [5],
        logs := tr.logs ++ [LogMsg.queued202 u attempt m] }
    exact ⟨rest, by rw [← hrest]⟩
  · intro u m b srv htrans
    exact fetchAux_exhaust u m b srv m 1 _ (fun k h1 h2 => htrans k h1 (by omega))

/-- Witness for C3 at the concrete scenario. -/
theorem auth_error_terminal_single_call_witness :
    fetch_bgg_collection "DadDialTone" authServer 1 2 =
      (.pair none (some 401),
       { calls := 1, sleeps := [],
         logs := [.attemptingFetch "DadDialTone",
                  .authError "DadDialTone" 401 "Unauthorized" (strFirst "Unauthorized" 1000),
                  .authHint] }) :=
  auth_error_terminal_single_call.1 "DadDialTone" 1 2 authServer 401 none
    "Unauthorized" "Unauthorized" (le_refl 1) rfl (Or.inl rfl)

/-- Witness for C6 at a concrete 429 attempt. -/
theorem retry_after_policy_amended_witness :
    ∃ rest, (fetchAux "u" 2 2 fracRAServer 2 1
        { calls := 0, sleeps := [], logs := [.attemptingFetch "u"] }).2.sleeps =
      [] ++ [retryDelay 2 1 (some "1.5")] ++ rest :=
  retry_after_policy_amended.2.2 "u" 2 2 fracRAServer 1 1
    { calls := 0, sleeps := [], logs := [.attemptingFetch "u"] }
    (some "1.5") "" "Too Many Requests" rfl

/-- Witness for C7: an all-503 run with `maxAttempts = 2` exhausts. -/
theorem pending_fixed_delay_and_exhaustion_witness :
    (fetch_bgg_collection "w" unavailableServer 2 2).1 = .pair none none ∧
    LogMsg.exhausted 2 "w" ∈ (fetch_bgg_collection "w" unavailableServer 2 2).2.logs :=
  pending_fixed_delay_and_exhaustion.2.2 "w" 2 2 unavailableServer (fun _ _ _ => rfl)

/-- C5 (corrected, amended): the coercion helper itself never raises — a
`None` input or a malformed string yields the documented default — and
whenever the `stats/rating/average`, `status`, `stats` and `numplays`
elements are all present, the decode of an item succeeds with every numeric
attribute coerced-with-default, the name defaulting to "Unknown" when the
name element is absent, and each status boolean true exactly when its
attribute value is "1". -/
theorem decoder_defaults_amended :
    (∀ d : Int, safe_convert_int none d = d) ∧
    (∀ d : ℚ, safe_convert_float none d = d) ∧
    (∀ (s : String) (d : Int), pyIntOfString s = none → safe_convert_int (some s) d = d) ∧
    (∀ (s : String) (d : ℚ), pyFloatOfString s = none → safe_convert_float (some s) d = d) ∧
    (∀ (uid : Int) (item ravg st stats np : Xml),
        item.find "stats/rating/average" = some ravg →
        item.find "status" = some st →
        item.find "stats" = some stats →
        item.find "numplays" = some np →
        decodeItem uid item = Except.ok
          { userid := uid,
            name := match item.find "name" with
              | some e => e.text
              | none => some "Unknown",
            bggid := safe_convert_int (item.getAttr "objectid") 0,
            avgrating := safe_convert_float (ravg.getAttr "value") 0,
            own := st.getAttrD "own" "0" == "1",
            prevowned := st.getAttrD "prevowned" "0" == "1",
            fortrade := st.getAttrD "fortrade" "0" == "1",
            want := st.getAttrD "want" "0" == "1",
            wanttoplay := st.getAttrD "wanttoplay" "0" == "1",
            wanttobuy := st.getAttrD "wanttobuy" "0" == "1",
            wishlist := st.getAttrD "wishlist" "0" == "1",
            preordered := st.getAttrD "preordered" "0" == "1",
            minplayers := safe_convert_int (stats.getAttr "minplayers") 0,
            maxplayers := safe_convert_int (stats.getAttr "maxplayers") 0,
            minplaytime := safe_convert_int (stats.getAttr "minplaytime") 0,
            numplays := safe_convert_int np.text 0 }) := by
  refine ⟨fun _ => rfl, fun _ => rfl, ?_, ?_, ?_⟩
  · intro s d h
    simp [safe_convert_int, h]
  · intro s d h
    simp [safe_convert_float, h]
  · intro uid item ravg st stats np h1 h2 h3 h4
    simp only [decodeItem, h1, h2, h3, h4, derefElem]
    rfl

/-- C5 counterexample: an item whose `numplays` element is absent — per the
claim its play count should default to 0 — instead raises `AttributeError`,
aborting the decode of the item (and, in `process_bgg_users`, of the whole
account's document). -/
theorem decoder_missing_element_cex :
    decodeItem 1 itemNoNumplays = Except.error PyErr.attributeError := by
  rfl

/-- Witness for C5 at an item with a non-numeric rating attribute and a
missing `minplayers` attribute: both coerce to their defaults and the item
decodes. -/
theorem decoder_defaults_amended_witness :
    decodeItem 7 itemOddRating = Except.ok
      { userid := 7, name := some "Gloomhaven", bggid := 174430, avgrating := 0,
        own := true, prevowned := false, fortrade := false, want := false,
        wanttoplay := false, wanttobuy := false, wishlist := false, preordered := false,
        minplayers := 0, maxplayers := 4, minplaytime := 60, numplays := 12 } :=
  decoder_defaults_amended.2.2.2.2 7 itemOddRating
    (.elem "average" [("value", "N/A")] none [])
    (.elem "status" [("own", "1")] none [])
    (.elem "stats" [("maxplayers", "4"), ("minplaytime", "60")] none
      [ .elem "rating" [] none [ .elem "average" [("value", "N/A")] none [] ] ])
    (.elem "numplays" [] (some "12") [])
    rfl rfl rfl rfl

/-- The key relation is reflexive. -/
theorem sameKey_refl (g : GameData) : sameKey g g = true := by
  simp [sameKey]

/-- No row of `l` matches the key of `g` when the `any` scan is false. -/
theorem filter_nil_of_any_false {g : GameData} {l : List GameData}
    (h : l.any (fun r => sameKey g r) = false) :
    l.filter (fun r => sameKey g r) = [] := by
  induction l with
  | nil => rfl
  | cons r rs ih =>
      simp only [List.any_cons, Bool.or_eq_false_iff] at h
      simp [List.filter_cons, h.1, ih h.2]

/-- Overwriting matching rows is the identity when no row matches. -/
theorem map_id_of_any_false {g : GameData} {l : List GameData}
    (h : l.any (fun r => sameKey g r) = false) :
    l.map (fun r => if sameKey g r then g else r) = l := by
  induction l with
  | nil => rfl
  | cons r rs ih =>
      simp only [List.any_cons, Bool.or_eq_false_iff] at h
      simp [h.1, ih h.2]

/-- After an upsert of `g`, a row with the key of `g` is present. -/
theorem any_upsert (store : List GameData) (g : GameData) :
    (upsert_boardgame_sql store g).any (fun r => sameKey g r) = true := by
  unfold upsert_boardgame_sql
  by_cases h : store.any (fun r => sameKey g r) = true
  · simp only [h, if_true, List.any_map]
    obtain ⟨x, hx, hpx⟩ := List.any_eq_true.mp h
    exact List.any_eq_true.mpr ⟨x, hx, by simp [Function.comp, hpx, sameKey_refl]⟩
  · simp only [h, if_false]
    simp [List.any_append, sameKey_refl]

/-- Overwriting matching rows twice equals overwriting them once. -/
theorem map_f_twice (g : GameData) (l : List GameData) :
    (l.map (fun r => if sameKey g r then g else r)).map
        (fun r => if sameKey g r then g else r)
      = l.map (fun r => if sameKey g r then g else r) := by
  induction l with
  | nil => rfl
  | cons r rs ih =>
      simp only [List.map_cons, ih]
      by_cases hk : sameKey g r = true
      · simp [hk, sameKey_refl]
      · simp [hk]

/-- C2 (confirmed, spec-modelled store): upserting the same record twice
leaves the store exactly as one upsert does; and, under the uniqueness
invariant (at most one row per key), after an upsert the rows carrying the
record's (account id, external item id) key are exactly the one upserted
record with identical field values. -/
theorem upsert_idempotent :
    (∀ (store : List GameData) (g : GameData),
        upsert_boardgame_sql (upsert_boardgame_sql store g) g
          = upsert_boardgame_sql store g) ∧
    (∀ (store : List GameData) (g : GameData),
        (rowsWithKey store g).length ≤ 1 →
        rowsWithKey (upsert_boardgame_sql store g) g = [g]) := by
  constructor
  · intro store g
    conv_lhs => rw [upsert_boardgame_sql]
    rw [if_pos (any_upsert store g)]
    by_cases h : store.any (fun r => sameKey g r) = true
    · rw [upsert_boardgame_sql, if_pos h, map_f_twice]
    · have hf : store.any (fun r => sameKey g r) = false := by
        revert h
        cases store.any (fun r => sameKey g r) <;> simp
      rw [upsert_boardgame_sql, if_neg h, List.map_append, map_id_of_any_false hf]
      simp [sameKey_refl]
  · intro store g
    induction store with
    | nil =>
        intro _
        simp [upsert_boardgame_sql, rowsWithKey, List.filter_cons, sameKey_refl]
    | cons r rs ih =>
        intro hlen
        by_cases hk : sameKey g r = true
        · have hany : (r :: rs).any (fun x => sameKey g x) = true := by
            simp [List.any_cons, hk]
          have hrs : rs.filter (fun x => sameKey g x) = [] := by
            have h1 : rowsWithKey (r :: rs) g = r :: rs.filter (fun x => sameKey g x) := by
              simp [rowsWithKey, List.filter_cons, hk]
            rw [h1, List.length_cons] at hlen
            exact List.length_eq_zero.mp (by omega)
          have hnone : rs.any (fun x => sameKey g x) = false := by
            cases ha : rs.any (fun x => sameKey g x)
            · rfl
            · obtain ⟨x, hx, hpx⟩ := List.any_eq_true.mp ha
              have hmem : x ∈ rs.filter (fun x => sameKey g x) :=
                List.mem_filter.mpr ⟨hx, hpx⟩
              rw [hrs] at hmem
              exact absurd hmem (List.not_mem_nil x)
          rw [upsert_boardgame_sql, if_pos hany]
          simp [rowsWithKey, List.filter_cons, sameKey_refl, hk,
            map_id_of_any_false hnone, hrs]
        · have hkf : sameKey g r = false := by
            revert hk
            cases sameKey g r <;> simp
          have heq : rowsWithKey (r :: rs) g = rowsWithKey rs g := by
            simp [rowsWithKey, List.filter_cons, hkf]
          rw [heq] at hlen
          cases ha : rs.any (fun x => sameKey g x)
          · have hany : (r :: rs).any (fun x => sameKey g x) = false := by
              simp [List.any_cons, hkf, ha]
            rw [upsert_boardgame_sql, if_neg (by simp [hany])]
            simp only [rowsWithKey]
            rw [List.filter_append, filter_nil_of_any_false hany]
            simp [List.filter_cons, sameKey_refl]
          · have hany : (r :: rs).any (fun x => sameKey g x) = true := by
              simp [List.any_cons, ha]
            have hup : upsert_boardgame_sql rs g
                = rs.map (fun x => if sameKey g x then g else x) := by
              rw [upsert_boardgame_sql, if_pos ha]
            have hih := ih hlen
            rw [hup] at hih
            rw [upsert_boardgame_sql, if_pos hany]
            simp only [List.map_cons, hkf, if_false]
            simpa [rowsWithKey, List.filter_cons, hkf] using hih

/-- Witness for C2: upserting a record into a one-row store with a different
key is idempotent and leaves exactly one row under the new record's key. -/
theorem upsert_idempotent_witness :
    upsert_boardgame_sql (upsert_boardgame_sql [gOther] gRecord) gRecord
      = upsert_boardgame_sql [gOther] gRecord ∧
    rowsWithKey (upsert_boardgame_sql [gOther] gRecord) gRecord = [gRecord] :=
  ⟨upsert_idempotent.1 [gOther] gRecord,
   upsert_idempotent.2 [gOther] gRecord (by decide)⟩

/-- C8 (corrected, amended): both writers commit exactly on full success and
release the cursor on every exit path on which it was opened, and the
backfill's marking write rolls back on any exception — but `upsert_boardgame`
issues no rollback on any path: on failure it logs, closes the cursor and
re-raises, leaving the aborted transaction to the caller's defensive
rollback. -/
theorem writer_transaction_scoping_amended :
    (∀ c e k : Option PyErr,
        DbEvent.commit ∈ (upsert_boardgame_tx c e k).1 ↔
          (c = none ∧ e = none ∧ k = none)) ∧
    (∀ c e k : Option PyErr,
        DbEvent.openCursor ∈ (upsert_boardgame_tx c e k).1 ↔
          DbEvent.closeCursor ∈ (upsert_boardgame_tx c e k).1) ∧
    (∀ c e k : Option PyErr, DbEvent.rollback ∉ (upsert_boardgame_tx c e k).1) ∧
    (∀ (e : PyErr) (k : Option PyErr),
        mark_private_tx none (some e) k
          = ([.openCursor, .rollback, .execFail, .rollback, .closeCursor], none, false)) ∧
    (∀ e : PyErr,
        mark_private_tx none none (some e)
          = ([.openCursor, .rollback, .execOk, .rollback, .closeCursor], none, false)) ∧
    (mark_private_tx none none none
        = ([.openCursor, .rollback, .execOk, .commit, .closeCursor], none, true)) := by
  refine ⟨?_, ?_, ?_, fun _ _ => rfl, fun _ => rfl, rfl⟩ <;>
    intro c e k <;>
    rcases c with _ | c <;> rcases e with _ | e <;> rcases k with _ | k <;>
    simp [upsert_boardgame_tx]

/-- C8 counterexample: a failing stored-procedure call inside
`upsert_boardgame` produces the trace open-cursor, failed execute,
close-cursor and re-raises — no rollback event occurs, contradicting
"rolled back on any exception". -/
theorem upsert_no_rollback_cex :
    upsert_boardgame_tx none (some (PyErr.dbError 0)) none
      = ([.openCursor, .execFail, .closeCursor], some (PyErr.dbError 0)) ∧
    decide (DbEvent.rollback ∈
      [DbEvent.openCursor, DbEvent.execFail, DbEvent.closeCursor]) = false :=
  ⟨rfl, by decide⟩

/-- Witness for C8 at concrete oracle outcomes. -/
theorem writer_transaction_scoping_amended_witness :
    (DbEvent.commit ∈ (upsert_boardgame_tx none none none).1 ↔
      ((none : Option PyErr) = none ∧ (none : Option PyErr) = none ∧
        (none : Option PyErr) = none)) ∧
    mark_private_tx none (some (PyErr.dbError 3)) none
      = ([.openCursor, .rollback, .execFail, .rollback, .closeCursor], none, false) :=
  ⟨writer_transaction_scoping_amended.1 none none none,
   writer_transaction_scoping_amended.2.2.2.1 (PyErr.dbError 3) none⟩

/-- C10 (confirmed): when the single probe (`maxAttempts = 1`) comes back
401/403, dry-run mode performs zero writes against the account table and logs
only the intended change, while live mode executes exactly one `UPDATE`
statement; every other probe outcome (success, exhaustion, or a fetch-raised
exception) performs no write in either mode. -/
theorem backfill_dry_run_writes :
    (∀ (uid : Int) (bg : String) (srv : Nat → HttpEvent) (c e k : Option PyErr)
        (body : Option String) (s : Nat),
        (fetch_bgg_collection bg srv 1 2).1 = .pair body (some s) →
        s = 401 ∨ s = 403 →
        check_user_and_mark uid bg srv true c e k =
          { ret := some (uid, bg, some s, false), events := [],
            logs := [.dryWouldMark uid bg (some s)] }) ∧
    (∀ (uid : Int) (bg : String) (srv : Nat → HttpEvent) (e k : Option PyErr)
        (body : Option String) (s : Nat),
        (fetch_bgg_collection bg srv 1 2).1 = .pair body (some s) →
        s = 401 ∨ s = 403 →
        writeCount (check_user_and_mark uid bg srv false none e k).events = 1) ∧
    (∀ (uid : Int) (bg : String) (srv : Nat → HttpEvent) (dryRun : Bool)
        (c e k : Option PyErr) (body : Option String) (status : Option Nat),
        (fetch_bgg_collection bg srv 1 2).1 = .pair body status →
        ¬ (status = some 401 ∨ status = some 403) →
        (check_user_and_mark uid bg srv dryRun c e k).events = []) ∧
    (∀ (uid : Int) (bg : String) (srv : Nat → HttpEvent) (dryRun : Bool)
        (c e k : Option PyErr),
        (fetch_bgg_collection bg srv 1 2).1 = .bareNone →
        (check_user_and_mark uid bg srv dryRun c e k).events = []) := by
  refine ⟨?_, ?_, ?_, ?_⟩
  · intro uid bg srv c e k body s hfetch hs
    rcases hs with rfl | rfl <;> simp [check_user_and_mark, hfetch]
  · intro uid bg srv e k body s hfetch hs
    rcases hs with rfl | rfl <;>
      rcases e with _ | e <;> rcases k with _ | k <;>
      simp [check_user_and_mark, hfetch, mark_private_tx, writeCount]
  · intro uid bg srv dryRun c e k body status hfetch hne
    simp [check_user_and_mark, hfetch, hne]
  · intro uid bg srv dryRun c e k hfetch
    simp [check_user_and_mark, hfetch]

/-- Witness for C10: dry-run and live probes of a 401 account, and a live
probe of an account whose collection is still being prepared. -/
theorem backfill_dry_run_writes_witness :
    check_user_and_mark 1 "DadDialTone" authServer true none none none =
      { ret := some (1, "DadDialTone", some 401, false), events := [],
        logs := [.dryWouldMark 1 "DadDialTone" (some 401)] } ∧
    writeCount (check_user_and_mark 1 "DadDialTone" authServer false none none none).events
      = 1 ∧
    (check_user_and_mark 2 "x" queuedServer false none none none).events = [] :=
  ⟨backfill_dry_run_writes.1 1 "DadDialTone" authServer none none none none 401
      rfl (Or.inl rfl),
   backfill_dry_run_writes.2.1 1 "DadDialTone" authServer none none none 401
      rfl (Or.inl rfl),
   backfill_dry_run_writes.2.2.1 2 "x" queuedServer false none none none none none
      rfl (by decide)⟩

/-- The per-item loop never touches the processed-accounts trace. -/
theorem upsertItems_processed (env : OrchEnv) (uid : Int) (bg : String) :
    ∀ (items : List Xml) (st : OrchState),
      (upsertItems env uid bg items st).1.processedUsers = st.processedUsers := by
  intro items
  induction items with
  | nil => intro st; rfl
  | cons it rest ih =>
      intro st
      cases hd : decodeItem uid it with
      | error e => simp [upsertItems, hd]
      | ok gd =>
          cases hu : env.upsert gd with
          | none => simp [upsertItems, hd, hu, ih]
          | some e => simp [upsertItems, hd, hu, ih]

/-- The per-account body never touches the processed-accounts trace. -/
theorem accountBody_processed (env : OrchEnv) (uid : Int) (bg : String) (st : OrchState) :
    (accountBody env uid bg st).1.processedUsers = st.processedUsers := by
  cases hf : (fetch_bgg_collection bg (env.server bg) 3 2).1 with
  | bareNone => simp [accountBody, hf]
  | pair body status =>
      by_cases hs : status = some 401 ∨ status = some 403
      · cases hm : env.mark uid <;> simp [accountBody, hf, hs, hm]
      · cases body with
        | none => simp [accountBody, hf, hs]
        | some b =>
            by_cases hb : b = ""
            · simp [accountBody, hf, hs, hb]
            · cases hp : env.parse b with
              | none => simp [accountBody, hf, hs, hb, hp]
              | some items =>
                  simp [accountBody, hf, hs, hb, hp, upsertItems_processed]

/-- One loop iteration appends exactly its account id to the processed
trace, whatever happens inside the account body. -/
theorem processUser_processed (env : OrchEnv) (uid : Int) (bg : String) (st : OrchState) :
    (processUser env uid bg st).processedUsers = st.processedUsers ++ [uid] := by
  have h := accountBody_processed env uid bg
    { st with processedUsers := st.processedUsers ++ [uid] }
  rcases hb : accountBody env uid bg
      { st with processedUsers := st.processedUsers ++ [uid] } with ⟨st1, res⟩
  rw [hb] at h
  simp only [] at h
  cases res <;> simp [processUser, hb, h]

/-- The account loop enters every account exactly once, in order, no matter
which accounts fail. -/
theorem runUsers_processed (env : OrchEnv) :
    ∀ (users : List (Int × String)) (st : OrchState),
      (runUsers env users st).processedUsers
        = st.processedUsers ++ users.map Prod.fst := by
  intro users
  induction users with
  | nil => intro st; simp [runUsers]
  | cons u rest ih =>
      intro st
      show (runUsers env rest (processUser env u.1 u.2 st)).processedUsers = _
      rw [ih, processUser_processed]
      simp

/-- C1 (confirmed): every account in the listing is processed regardless of
any exception raised while fetching, decoding, or writing any account (the
account boundary catches it and the loop continues); and within one account,
when every item decodes, a record-level upsert failure is skipped — the
per-item loop finishes the whole item list and writes exactly the records
whose upsert succeeded, in order. -/
theorem orchestrator_account_isolation :
    (∀ (env : OrchEnv) (users : List (Int × String)),
        env.listUsers = Except.ok users →
        ∃ st : OrchState, process_bgg_users env = Except.ok st ∧
          st.processedUsers = users.map Prod.fst) ∧
    (∀ (env : OrchEnv) (users : List (Int × String)) (st : OrchState),
        (runUsers env users st).processedUsers
          = st.processedUsers ++ users.map Prod.fst) ∧
    (∀ (env : OrchEnv) (uid : Int) (bg : String) (items : List Xml) (st : OrchState),
        (∀ it ∈ items, (decodeItem uid it).isOk = true) →
        (upsertItems env uid bg items st).2 = none ∧
        (upsertItems env uid bg items st).1.upserted
          = st.upserted ++ okUpserts env uid items) := by
  refine ⟨?_, fun env => runUsers_processed env, ?_⟩
  · intro env users h
    refine ⟨runUsers env users
      { initOrchState with logs := [.processingUsers users.length] }, ?_, ?_⟩
    · simp [process_bgg_users, h]
    · rw [runUsers_processed]
      rfl
  · intro env uid bg items
    induction items with
    | nil =>
        intro st _
        simp [upsertItems, okUpserts]
    | cons it rest ih =>
        intro st h
        have hhd := h it (List.mem_cons_self it rest)
        have htl : ∀ x ∈ rest, (decodeItem uid x).isOk = true :=
          fun x hx => h x (List.mem_cons_of_mem it hx)
        cases hd : decodeItem uid it with
        | error e =>
            rw [hd] at hhd
            exact absurd hhd (by simp [Except.isOk, Except.toBool])
        | ok gd =>
            cases hu : env.upsert gd with
            | none =>
                obtain ⟨ha, hb⟩ := ih
                  { st with upserted := st.upserted ++ [gd],
                            logs := st.logs ++ [.upsertOkLog gd.name gd.bggid] } htl
                refine ⟨?_, ?_⟩
                · simpa [upsertItems, hd, hu] using ha
                · rw [show (upsertItems env uid bg (it :: rest) st)
                    = upsertItems env uid bg rest
                        { st with upserted := st.upserted ++ [gd],
                                  logs := st.logs ++ [.upsertOkLog gd.name gd.bggid] } by
                      simp [upsertItems, hd, hu]]
                  rw [hb]
                  simp [okUpserts, List.filterMap_cons, hd, hu]
            | some e =>
                obtain ⟨ha, hb⟩ := ih
                  { st with logs := st.logs ++ [.upsertSkipped bg gd.name] } htl
                refine ⟨?_, ?_⟩
                · simpa [upsertItems, hd, hu] using ha
                · rw [show (upsertItems env uid bg (it :: rest) st)
                    = upsertItems env uid bg rest
                        { st with logs := st.logs ++ [.upsertSkipped bg gd.name] } by
                      simp [upsertItems, hd, hu]]
                  rw [hb]
                  simp [okUpserts, List.filterMap_cons, hd, hu]

/-- Witness for C1: two accounts, the first raising `AttributeError` during
decode, are both processed; and a one-item list with a succeeding decode and
upsert is written in full. -/
theorem orchestrator_account_isolation_witness :
    (∃ st : OrchState, process_bgg_users twoUserEnv = Except.ok st ∧
        st.processedUsers = [1, 2]) ∧
    (upsertItems twoUserEnv 2 "bob" [goodItem] initOrchState).2 = none ∧
    (upsertItems twoUserEnv 2 "bob" [goodItem] initOrchState).1.upserted
      = [] ++ okUpserts twoUserEnv 2 [goodItem] :=
  ⟨orchestrator_account_isolation.1 twoUserEnv [(1, "alice"), (2, "bob")] rfl,
   (orchestrator_account_isolation.2.2 twoUserEnv 2 "bob" [goodItem] initOrchState
      (fun it hit => by
        rw [List.mem_singleton.mp hit]
        rfl)).1,
   (orchestrator_account_isolation.2.2 twoUserEnv 2 "bob" [goodItem] initOrchState
      (fun it hit => by
        rw [List.mem_singleton.mp hit]
        rfl)).2⟩

/-- C9 (corrected, amended): `process_bgg_users` returns no aggregate summary
(its Python body has no return statement, so the return value is `None`); it
does not raise for partial failures, and even a catastrophic setup failure
(the account-listing query raising) is caught by the outermost handler and
logged as a critical error instead of propagating. -/
theorem orchestrator_setup_failure_amended :
    (∀ env : OrchEnv, ∃ st : OrchState, process_bgg_users env = Except.ok st) ∧
    (∀ (env : OrchEnv) (e : PyErr), env.listUsers = Except.error e →
        process_bgg_users env = Except.ok { initOrchState with logs := [.criticalRun] }) := by
  constructor
  · intro env
    cases h : env.listUsers with
    | error e =>
        exact ⟨{ initOrchState with logs := [.criticalRun] },
          by simp [process_bgg_users, h]⟩
    | ok users =>
        exact ⟨runUsers env users
          { initOrchState with logs := [.processingUsers users.length] },
          by simp [process_bgg_users, h]⟩
  · intro env e h
    simp [process_bgg_users, h]

/-- C9 counterexample: with an account-listing query that raises, the run
terminates normally with only a critical-error log — nothing propagates to
the top level and no summary of counts is produced. -/
theorem orchestrator_no_propagation_cex :
    process_bgg_users badListEnv
      = Except.ok { processedUsers := [], markedPrivate := [], upserted := [],
                    logs := [OrchLog.criticalRun] } := rfl

/-- Witness for C9 at the failing-listing environment. -/
theorem orchestrator_setup_failure_amended_witness :
    process_bgg_users badListEnv
      = Except.ok { initOrchState with logs := [OrchLog.criticalRun] } :=
  orchestrator_setup_failure_amended.2 badListEnv (PyErr.dbError 7) rfl

end Darkbot
